import Mathlib

/-
Verification of the Tauri desktop shell in
`src/apps/desktop/src-tauri/src/main.rs` (repository artik-v4).

The source exposes three commands sharing one piece of state, a
`Mutex<Option<Child>>`:
  * `open_folder_dialog` — native folder picker, `Result<String, String>`;
  * `start_dev_server(repo_path)` — picks a package manager from lockfile
    presence, spawns `<pm> run dev` in the repo directory, stores the child
    handle, returns the hardcoded port 3001;
  * `stop_dev_server` — takes the handle out of the state and kills it.

Shallow embedding: the operating system is an explicit environment `Env`
(file-existence oracle, spawn, kill); the mutex-guarded option becomes an
explicit `Option Child` threaded through each operation; every operation
additionally reports the spawn requests it issued and the children it
invoked kill on, so that theorems can speak about which executable was
chosen and which processes were ever sent a termination signal.
-/

namespace ArtikV4

/-- A handle to an operating-system child process (`std::process::Child`),
identified for the model by its pid. -/
structure Child where
  pid : Nat
deriving DecidableEq, Repr

/-- A spawn request as built by `Command::new(pm).args(&["run", "dev"]).current_dir(&repo_path)`:
program name, argument list, working directory. -/
structure SpawnReq where
  prog : String
  args : List String
  cwd : String
deriving DecidableEq, Repr

/-- The operating-system services the commands consume: file existence
(`Path::new(..).exists()`), process spawn (`Command::spawn`, which fails with
an error message, e.g. executable not found), and process kill
(`Child::kill`). -/
structure Env where
  fileExists : String → Bool
  spawn : String → List String → String → Except String Child
  kill : Child → Except String Unit

/-- The contents of `DevServerState`: `Mutex<Option<Child>>`, i.e. at most one
tracked child process. The mutex itself is modelled by explicit state
passing (each command holds the lock for its whole read-modify-write). -/
abbrev DevServerState := Option Child

/-- The state installed by `main` via `.manage(DevServerState { process: Mutex::new(None) })`:
empty at application launch. -/
def initialState : DevServerState := none

/-- The package-manager choice at the top of `start_dev_server`:
`if Path::new(&format!("{}/pnpm-lock.yaml", repo_path)).exists() { "pnpm" }
else if Path::new(&format!("{}/yarn.lock", repo_path)).exists() { "yarn" }
else { "npm" }`. -/
def detectPM (fileExists : String → Bool) (repo_path : String) : String :=
  if fileExists (repo_path ++ "/pnpm-lock.yaml") then "pnpm"
  else if fileExists (repo_path ++ "/yarn.lock") then "yarn"
  else "npm"

/-- Result of one `start_dev_server` call: the `Result<u16, String>` returned
to the caller, the state after the call, the spawn requests issued, and the
children kill was invoked on during the call. -/
structure StartOutcome where
  result : Except String Nat
  final : DevServerState
  spawned : List SpawnReq
  killed : List Child
deriving Repr

/-- `start_dev_server`: detects the package manager, spawns `<pm> run dev`
in `repo_path`; on spawn error returns
`Err(format!("Failed to start dev server: {}", e))` via `?` before the state
is touched; on success overwrites the tracked handle with the new child
(`*process_lock = Some(child)`) and returns `Ok(3001)`. It never calls
kill. -/
def start_dev_server (env : Env) (repo_path : String) (st : DevServerState) :
    StartOutcome :=
  let pm := detectPM env.fileExists repo_path
  match env.spawn pm ["run", "dev"] repo_path with
  | Except.error e =>
      ⟨Except.error ("Failed to start dev server: " ++ e), st,
        [⟨pm, ["run", "dev"], repo_path⟩], []⟩
  | Except.ok child =>
      ⟨Except.ok 3001, some child, [⟨pm, ["run", "dev"], repo_path⟩], []⟩

/-- Result of one `stop_dev_server` call: the `Result<(), String>` returned to
the caller, the state after the call, and the children kill was invoked on
during the call. -/
structure StopOutcome where
  result : Except String Unit
  final : DevServerState
  killed : List Child
deriving Repr

/-- `stop_dev_server`: `if let Some(mut child) = process_lock.take()` — the
handle is removed from the state by `take()` before the kill is attempted;
a kill error is surfaced as `Err(format!("Failed to stop dev server: {}", e))`
but the handle remains removed; with no tracked process the call is a no-op
returning `Ok(())`. -/
def stop_dev_server (env : Env) (st : DevServerState) : StopOutcome :=
  match st with
  | none => ⟨Except.ok (), none, []⟩
  | some child =>
      match env.kill child with
      | Except.error e =>
          ⟨Except.error ("Failed to stop dev server: " ++ e), none, [child]⟩
      | Except.ok _ => ⟨Except.ok (), none, [child]⟩

/-- `open_folder_dialog`: the blocking `FileDialogBuilder::new().pick_folder()`
yields `Option<PathBuf>`; the command maps `Some(path)` to
`Ok(path.to_string_lossy().to_string())` and `None` (user cancelled) to
`Err("No folder selected")`. The dialog outcome is the input; the command
touches no shared state. -/
def open_folder_dialog (picked : Option String) : Except String String :=
  match picked with
  | some path => Except.ok path
  | none => Except.error "No folder selected"

/-- Number of process handles held in the shared state. -/
def countTracked : DevServerState → Nat
  | none => 0
  | some _ => 1

/- Concrete environments used by the witnesses. -/

/-- Environment whose repository root `/r` contains both lockfiles, where
spawning yields a child whose pid is the length of the working directory,
and kill succeeds. -/
def envBoth : Env :=
  ⟨fun s => s == "/r/pnpm-lock.yaml" || s == "/r/yarn.lock",
   fun _ _ cwd => Except.ok ⟨cwd.length⟩,
   fun _ => Except.ok ()⟩

/-- Environment with no lockfiles where spawn succeeds (pid = length of the
working directory) and kill succeeds. -/
def envOk : Env :=
  ⟨fun _ => false, fun _ _ cwd => Except.ok ⟨cwd.length⟩, fun _ => Except.ok ()⟩

/-- Environment where every spawn fails with "No such file or directory"
(executable not found). -/
def envSpawnFail : Env :=
  ⟨fun _ => false,
   fun _ _ _ => Except.error "No such file or directory (os error 2)",
   fun _ => Except.ok ()⟩

/-- Environment where spawn succeeds but kill fails with a permission
error. -/
def envKillFail : Env :=
  ⟨fun _ => false, fun _ _ cwd => Except.ok ⟨cwd.length⟩,
   fun _ => Except.error "Operation not permitted (os error 1)"⟩

/-- Helper: `start_dev_server` issues exactly one spawn request, for the
detected package manager with arguments `run dev` in the repository
directory, whatever the spawn outcome. -/
theorem start_spawned_eq (env : Env) (p : String) (st : DevServerState) :
    (start_dev_server env p st).spawned =
      [⟨detectPM env.fileExists p, ["run", "dev"], p⟩] := by
  simp only [start_dev_server]
  cases env.spawn (detectPM env.fileExists p) ["run", "dev"] p <;> rfl

/-- Helper: `start_dev_server` never invokes kill. -/
theorem start_killed_nil (env : Env) (p : String) (st : DevServerState) :
    (start_dev_server env p st).killed = [] := by
  simp only [start_dev_server]
  cases env.spawn (detectPM env.fileExists p) ["run", "dev"] p <;> rfl

/-- Helper: on a successful spawn, `start_dev_server` returns `Ok(3001)` and
tracks exactly the spawned child. -/
theorem start_ok_of_spawn_ok (env : Env) (p : String) (st : DevServerState)
    (c : Child)
    (h : env.spawn (detectPM env.fileExists p) ["run", "dev"] p = Except.ok c) :
    (start_dev_server env p st).result = Except.ok 3001 ∧
      (start_dev_server env p st).final = some c := by
  simp only [start_dev_server]
  rw [h]
  exact ⟨rfl, rfl⟩

/-- Helper: a successful `start_dev_server` result means the spawn succeeded. -/
theorem start_spawn_ok_of_ok (env : Env) (p : String) (st : DevServerState)
    (n : Nat) (h : (start_dev_server env p st).result = Except.ok n) :
    ∃ c, env.spawn (detectPM env.fileExists p) ["run", "dev"] p = Except.ok c := by
  simp only [start_dev_server] at h
  cases hs : env.spawn (detectPM env.fileExists p) ["run", "dev"] p with
  | error e => rw [hs] at h; exact absurd h (by simp)
  | ok c => exact ⟨c, rfl⟩


/-- Helper: `countTracked` of any state is at most one, since the state is an
optional handle. -/
theorem countTracked_le_one (st : DevServerState) : countTracked st ≤ 1 := by
  cases st <;> simp [countTracked]

/-- Helper: every child `stop_dev_server` invokes kill on is the child tracked
in the state it was called with. -/
theorem stop_killed_tracked (env : Env) (st : DevServerState) (c : Child)
    (h : c ∈ (stop_dev_server env st).killed) : st = some c := by
  cases st with
  | none => simp [stop_dev_server] at h
  | some c0 =>
      simp only [stop_dev_server] at h
      cases hk : env.kill c0 <;> rw [hk] at h <;> simp at h <;> rw [h]

/-- Helper: `stop_dev_server` on a tracked child clears the state and invokes
kill on exactly that child, whatever the kill outcome. -/
theorem stop_some_clears_and_kills (env : Env) (c : Child) :
    (stop_dev_server env (some c)).final = none ∧
      (stop_dev_server env (some c)).killed = [c] := by
  simp only [stop_dev_server]
  cases hk : env.kill c <;> exact ⟨rfl, rfl⟩

/-- Claim C1: for every repository path, `start_dev_server` chooses the
package manager by lockfile presence with fixed priority: if
`pnpm-lock.yaml` exists at the path root it chooses pnpm (even when
`yarn.lock` also exists); otherwise if `yarn.lock` exists it chooses yarn;
otherwise it falls back to the default manager npm. -/
theorem start_dev_server_lockfile_priority (env : Env) (p : String)
    (st : DevServerState) :
    (env.fileExists (p ++ "/pnpm-lock.yaml") = true →
      (start_dev_server env p st).spawned.map SpawnReq.prog = ["pnpm"]) ∧
    (env.fileExists (p ++ "/pnpm-lock.yaml") = false →
      env.fileExists (p ++ "/yarn.lock") = true →
      (start_dev_server env p st).spawned.map SpawnReq.prog = ["yarn"]) ∧
    (env.fileExists (p ++ "/pnpm-lock.yaml") = false →
      env.fileExists (p ++ "/yarn.lock") = false →
      (start_dev_server env p st).spawned.map SpawnReq.prog = ["npm"]) := by
  refine ⟨fun h1 => ?_, fun h1 h2 => ?_, fun h1 h2 => ?_⟩
  · rw [start_spawned_eq]; simp [detectPM, h1]
  · rw [start_spawned_eq]; simp [detectPM, h1, h2]
  · rw [start_spawned_eq]; simp [detectPM, h1, h2]

/-- Witness for C1: in an environment where the repository root `/r` holds
both `pnpm-lock.yaml` and `yarn.lock`, the spawned program is pnpm. -/
theorem start_dev_server_lockfile_priority_witness :
    envBoth.fileExists ("/r" ++ "/pnpm-lock.yaml") = true ∧
      (start_dev_server envBoth "/r" none).spawned.map SpawnReq.prog = ["pnpm"] :=
  ⟨by decide, (start_dev_server_lockfile_priority envBoth "/r" none).1 (by decide)⟩

/-- Claim C2: a second successful `start_dev_server` call without an
intervening stop leaves exactly the new child tracked; neither start call
invokes kill, and any later stop only kills the currently tracked (new)
child, so the previously tracked process is never terminated by any
operation of this program. -/
theorem start_twice_tracks_only_second (env : Env) (p1 p2 : String)
    (st : DevServerState) (c1 c2 : Child)
    (h1 : env.spawn (detectPM env.fileExists p1) ["run", "dev"] p1 = Except.ok c1)
    (h2 : env.spawn (detectPM env.fileExists p2) ["run", "dev"] p2 = Except.ok c2) :
    (start_dev_server env p1 st).final = some c1 ∧
    (start_dev_server env p2 (start_dev_server env p1 st).final).final = some c2 ∧
    (start_dev_server env p1 st).killed = [] ∧
    (start_dev_server env p2 (start_dev_server env p1 st).final).killed = [] ∧
    (∀ c, c ∈ (stop_dev_server env
        (start_dev_server env p2 (start_dev_server env p1 st).final).final).killed →
      c = c2) := by
  have hA := start_ok_of_spawn_ok env p1 st c1 h1
  have hB := start_ok_of_spawn_ok env p2 (start_dev_server env p1 st).final c2 h2
  refine ⟨hA.2, hB.2, start_killed_nil env p1 st, start_killed_nil env p2 _, ?_⟩
  intro c hc
  have := stop_killed_tracked env _ c hc
  rw [hB.2] at this
  exact (Option.some.injEq c2 c ▸ this).symm

/-- Witness for C2: two starts in `envOk` (children keyed by directory
length) track only the second child `⟨3⟩`; the first child `⟨2⟩` is never
killed. -/
theorem start_twice_tracks_only_second_witness :
    (start_dev_server envOk "/a" none).final = some ⟨2⟩ ∧
      (start_dev_server envOk "/ab" (start_dev_server envOk "/a" none).final).final =
        some ⟨3⟩ ∧
      (start_dev_server envOk "/a" none).killed = [] :=
  ⟨(start_twice_tracks_only_second envOk "/a" "/ab" none ⟨2⟩ ⟨3⟩ rfl rfl).1,
   (start_twice_tracks_only_second envOk "/a" "/ab" none ⟨2⟩ ⟨3⟩ rfl rfl).2.1,
   (start_twice_tracks_only_second envOk "/a" "/ab" none ⟨2⟩ ⟨3⟩ rfl rfl).2.2.1⟩

/-- Claim C3: with no process tracked, `stop_dev_server` returns success
without changing the state and without killing anything; a second stop in a
row succeeds as well (idempotent no-op). -/
theorem stop_idempotent_no_process (env : Env) :
    (stop_dev_server env none).result = Except.ok () ∧
    (stop_dev_server env none).final = none ∧
    (stop_dev_server env none).killed = [] ∧
    (stop_dev_server env (stop_dev_server env none).final).result = Except.ok () ∧
    (stop_dev_server env (stop_dev_server env none).final).final = none :=
  ⟨rfl, rfl, rfl, rfl, rfl⟩

/-- Claim C4: whenever `start_dev_server` succeeds it returns the fixed port
3001, for every path, package manager and spawn outcome. -/
theorem start_success_returns_3001 (env : Env) (p : String)
    (st : DevServerState) (n : Nat)
    (h : (start_dev_server env p st).result = Except.ok n) : n = 3001 := by
  obtain ⟨c, hc⟩ := start_spawn_ok_of_ok env p st n h
  have h2 := (start_ok_of_spawn_ok env p st c hc).1
  rw [h] at h2
  injection h2

/-- Witness for C4: a concrete successful start returns 3001. -/
theorem start_success_returns_3001_witness :
    (start_dev_server envOk "/r" none).result = Except.ok 3001 ∧ (3001 : Nat) = 3001 :=
  ⟨rfl, start_success_returns_3001 envOk "/r" none 3001 rfl⟩

/-- Claim C5: after a successful start the tracked handle is non-empty; after
the immediately following stop the handle is empty and kill was invoked on
the tracked child. -/
theorem start_then_stop_clears_and_kills (env : Env) (p : String)
    (st : DevServerState) :
    ((∃ n, (start_dev_server env p st).result = Except.ok n) →
      (start_dev_server env p st).final ≠ none) ∧
    (∀ c, (start_dev_server env p st).final = some c →
      (stop_dev_server env (start_dev_server env p st).final).final = none ∧
      (stop_dev_server env (start_dev_server env p st).final).killed = [c]) := by
  constructor
  · rintro ⟨n, hn⟩
    obtain ⟨c, hc⟩ := start_spawn_ok_of_ok env p st n hn
    rw [(start_ok_of_spawn_ok env p st c hc).2]
    simp
  · intro c hfc
    rw [hfc]
    exact stop_some_clears_and_kills env c

/-- Witness for C5: a successful start in `envOk` tracks child `⟨2⟩`; the
following stop clears the state and kills `⟨2⟩`. -/
theorem start_then_stop_clears_and_kills_witness :
    (start_dev_server envOk "/r" none).final = some ⟨2⟩ ∧
      (stop_dev_server envOk (start_dev_server envOk "/r" none).final).final = none ∧
      (stop_dev_server envOk (start_dev_server envOk "/r" none).final).killed = [⟨2⟩] :=
  ⟨rfl, ((start_then_stop_clears_and_kills envOk "/r" none).2 ⟨2⟩ rfl).1,
    ((start_then_stop_clears_and_kills envOk "/r" none).2 ⟨2⟩ rfl).2⟩

/-- Claim C6: when spawning the chosen executable fails, `start_dev_server`
returns a failure carrying the descriptive error text
`Failed to start dev server: <e>` rather than a port number. -/
theorem start_spawn_failure_returns_error (env : Env) (p : String)
    (st : DevServerState) (e : String)
    (h : env.spawn (detectPM env.fileExists p) ["run", "dev"] p = Except.error e) :
    (start_dev_server env p st).result =
      Except.error ("Failed to start dev server: " ++ e) := by
  simp only [start_dev_server]
  rw [h]

/-- Witness for C6: with every spawn failing with "No such file or directory",
start returns the wrapped error text. -/
theorem start_spawn_failure_returns_error_witness :
    envSpawnFail.spawn (detectPM envSpawnFail.fileExists "/r") ["run", "dev"] "/r" =
      Except.error "No such file or directory (os error 2)" ∧
    (start_dev_server envSpawnFail "/r" none).result =
      Except.error ("Failed to start dev server: " ++
        "No such file or directory (os error 2)") :=
  ⟨rfl, start_spawn_failure_returns_error envSpawnFail "/r" none
    "No such file or directory (os error 2)" rfl⟩

/-- Claim C7: a cancelled folder pick yields the "no selection" error, never a
path value; a picked folder is returned as its path text. -/
theorem open_folder_dialog_cancel_and_pick :
    open_folder_dialog none = Except.error "No folder selected" ∧
    (∀ p, open_folder_dialog none ≠ Except.ok p) ∧
    (∀ p, open_folder_dialog (some p) = Except.ok p) :=
  ⟨rfl, fun p => by simp [open_folder_dialog], fun p => rfl⟩

/-- Claim C8: the shared state starts empty at application launch, and after
any `start_dev_server` or `stop_dev_server` call it holds at most one
process handle (`open_folder_dialog` takes no state at all, as its
signature shows, so it preserves the invariant trivially). -/
theorem at_most_one_tracked :
    countTracked initialState = 0 ∧
    (∀ env p st, countTracked (start_dev_server env p st).final ≤ 1) ∧
    (∀ env st, countTracked (stop_dev_server env st).final ≤ 1) :=
  ⟨rfl, fun _ _ _ => countTracked_le_one _, fun _ _ => countTracked_le_one _⟩

/-- Claim C9: when `start_dev_server` fails because the spawn fails, the
shared state is left unchanged — the error returns before the state is
touched, so any previously tracked handle is still tracked. -/
theorem start_failure_leaves_state_unchanged (env : Env) (p : String)
    (st : DevServerState) (e : String)
    (h : (start_dev_server env p st).result = Except.error e) :
    (start_dev_server env p st).final = st := by
  simp only [start_dev_server] at h ⊢
  cases hs : env.spawn (detectPM env.fileExists p) ["run", "dev"] p with
  | error e0 => rfl
  | ok c => rw [hs] at h; simp at h

/-- Witness for C9: a failing start leaves a previously tracked handle `⟨5⟩`
tracked. -/
theorem start_failure_leaves_state_unchanged_witness :
    (start_dev_server envSpawnFail "/r" (some ⟨5⟩)).result =
      Except.error ("Failed to start dev server: " ++
        "No such file or directory (os error 2)") ∧
    (start_dev_server envSpawnFail "/r" (some ⟨5⟩)).final = some ⟨5⟩ :=
  ⟨rfl, start_failure_leaves_state_unchanged envSpawnFail "/r" (some ⟨5⟩)
    ("Failed to start dev server: " ++ "No such file or directory (os error 2)") rfl⟩

/-- Claim C10: after every `stop_dev_server` call the state is empty, because
the handle is taken out before the kill is attempted; in particular a kill
failure still leaves the state cleared while the error text is returned. -/
theorem stop_always_clears_state (env : Env) (st : DevServerState) :
    (stop_dev_server env st).final = none ∧
    (∀ c e, st = some c → env.kill c = Except.error e →
      (stop_dev_server env st).result =
        Except.error ("Failed to stop dev server: " ++ e)) := by
  constructor
  · cases st with
    | none => rfl
    | some c => exact (stop_some_clears_and_kills env c).1.symm ▸
        (stop_some_clears_and_kills env c).1
  · intro c e hst hk
    subst hst
    simp only [stop_dev_server]
    rw [hk]

/-- Witness for C10: with a tracked child `⟨7⟩` and a failing kill, stop still
clears the state and surfaces the kill error. -/
theorem stop_always_clears_state_witness :
    envKillFail.kill ⟨7⟩ = Except.error "Operation not permitted (os error 1)" ∧
    (stop_dev_server envKillFail (some ⟨7⟩)).final = none ∧
    (stop_dev_server envKillFail (some ⟨7⟩)).result =
      Except.error ("Failed to stop dev server: " ++
        "Operation not permitted (os error 1)") :=
  ⟨rfl, (stop_always_clears_state envKillFail (some ⟨7⟩)).1,
    (stop_always_clears_state envKillFail (some ⟨7⟩)).2 ⟨7⟩
      "Operation not permitted (os error 1)" rfl rfl⟩

end ArtikV4
